import Mathlib

/-!
Shallow embedding of the InnoVTOL dynamics simulator (`vtolDynamicsSim.cpp`)
and proofs about its actuator, aerodynamics, propulsion, rigid-body and
calibration logic.

Modelling conventions:
* C++ `double` values are modelled as real numbers (`ℝ`); the source's
  floating-point rounding is not modelled.
* `Eigen::Vector3d` is `Fin 3 → ℝ`, `Eigen::Quaterniond` is `Quaternion ℝ`
  (Hamilton product, scalar-first constructor as in Eigen).
* Dynamically sized Eigen matrices (`Eigen::MatrixXd`) are a record of row
  and column counts together with a total entry function.
* In-place mutation is modelled by returning the updated vector/state.
* Fields of the simulator state that are written only for diagnostics or
  used only by code outside the verified claims (wind parameters, sensor
  biases, `Ftotal`, `Mtotal`, the force/moment breakdown fields,
  `bodylinearVel`, `MmotorsTotal`, `initialPose`) are omitted from the
  state record; no claim reads them.
-/

namespace VtolDynamics

open Matrix

noncomputable section

/-- Three-component double vector (`Eigen::Vector3d`). -/
abbrev Vec3 := Fin 3 → ℝ

/-- Construct a double quaternion (`Eigen::Quaterniond`); the argument order
`w, x, y, z` matches the Eigen constructor calls in the source. -/
def quatMk (w x y z : ℝ) : Quaternion ℝ :=
  QuaternionAlgebra.mk w x y z

/-- Cross product of two 3-vectors (`Eigen .cross`). -/
def cross3 (a b : Vec3) : Vec3 :=
  ![a 1 * b 2 - a 2 * b 1, a 2 * b 0 - a 0 * b 2, a 0 * b 1 - a 1 * b 0]

/-- Euclidean norm of a 3-vector (`Eigen .norm`). -/
def norm3 (a : Vec3) : ℝ :=
  Real.sqrt (a 0 ^ 2 + a 1 ^ 2 + a 2 ^ 2)

/-- Unit vector in the direction of `a` (`Eigen .normalized`); division by a
zero norm is modelled by Lean's `1/0 = 0` convention. -/
def normalized3 (a : Vec3) : Vec3 :=
  (1 / norm3 a) • a

/-- The value `boost::algorithm::clamp(v, lo, hi)`. -/
def clamp (v lo hi : ℝ) : ℝ :=
  if v < lo then lo else if hi < v then hi else v

/-- Modelled from the spec: `Math::lerp` from `common_math.hpp`, which is not
among the provided sources.  Linear interpolation from `a` to `b` by the
fraction `t`, pinned by the repository's `calculatePolynomial` tests
(`lerp 0 1 0.5 = 0.5`). -/
def lerp (a b t : ℝ) : ℝ :=
  a + t * (b - a)

/-- Number of indices `i < n` with `bp i < value` (scan helper for the
breakpoint searches). -/
def countBelow (bp : ℕ → ℝ) (value : ℝ) : ℕ → ℕ
  | 0 => 0
  | n + 1 => countBelow bp value n + if bp n < value then 1 else 0

/-- Number of indices `i < n` with `value < bp i`. -/
def countAbove (bp : ℕ → ℝ) (value : ℝ) : ℕ → ℕ
  | 0 => 0
  | n + 1 => countAbove bp value n + if value < bp n then 1 else 0

/-- Modelled from the spec: `Math::findPrevRowIdxInIncreasingSequence` from
`common_math.hpp`, which is not among the provided sources.  Index of the
last row whose breakpoint is strictly below the value, clamped to
`[0, rows-2]`; pinned by the repository's unit tests (for breakpoints
`5,10,…,40`: value `-1 ↦ 0`, `10 ↦ 0`, `10.1 ↦ 1`, `50 ↦ 6`). -/
def findPrevRowIdxInIncreasingSequence (rows : ℕ) (bp : ℕ → ℝ) (value : ℝ) : ℕ :=
  min (countBelow bp value rows - 1) (rows - 2)

/-- Modelled from the spec: the decreasing-sequence variant of the previous
row search, pinned by the repository's unit tests (for breakpoints
`40,35,…,5`: value `-1 ↦ 6`, `10 ↦ 5`, `35.1 ↦ 0`, `50 ↦ 0`). -/
def findPrevRowIdxInDecreasingSequence (rows : ℕ) (bp : ℕ → ℝ) (value : ℝ) : ℕ :=
  min (countAbove bp value rows - 1) (rows - 2)

/-- Modelled from the spec: `Math::findPrevRowIdxInMonotonicSequence` from
`common_math.hpp`, which is not among the provided sources.  Dispatches on
the direction of the monotonic breakpoint column ("monotonic increasing or
decreasing sequences both supported"). -/
def findPrevRowIdxInMonotonicSequence (rows : ℕ) (bp : ℕ → ℝ) (value : ℝ) : ℕ :=
  if bp 0 ≤ bp (rows - 1) then findPrevRowIdxInIncreasingSequence rows bp value
  else findPrevRowIdxInDecreasingSequence rows bp value

/-- Modelled from the spec: `Math::polyval` from `common_math.hpp`, which is
not among the provided sources.  Evaluates a polynomial given by `n`
coefficients in descending-degree order, pinned by the repository's test
`polyval [1.1,…,1.7] 0.5 ≈ 3.1859`. -/
def polyval (n : ℕ) (c : ℕ → ℝ) (x : ℝ) : ℝ :=
  Finset.sum (Finset.range n) (fun i => c i * x ^ (n - 1 - i))

/-- Dynamically sized double matrix (`Eigen::MatrixXd`): row/column counts
plus a total entry function (reads outside the bounds never influence the
modelled results). -/
structure MatrixD where
  rows : ℕ
  cols : ℕ
  entry : ℕ → ℕ → ℝ

/-- Entrywise negation of a matrix (the source's `-tables_.actuator`). -/
def MatrixD.neg (m : MatrixD) : MatrixD :=
  ⟨m.rows, m.cols, fun i j => -(m.entry i j)⟩

/-- Breakpoint column `table(i, 0)` of a coefficient table. -/
def tableBreakpoint (table : MatrixD) : ℕ → ℝ :=
  fun i => table.entry i 0

/-- Row index of the lower bracketing breakpoint found for a query value. -/
def tablePrevIdx (table : MatrixD) (value : ℝ) : ℕ :=
  findPrevRowIdxInMonotonicSequence table.rows (tableBreakpoint table) value

/-- Difference between the two bracketing breakpoints found for a query. -/
def tableStep (table : MatrixD) (value : ℝ) : ℝ :=
  table.entry (tablePrevIdx table value + 1) 0 - table.entry (tablePrevIdx table value) 0

/-- Squared quaternion norm (sum of the four squared components). -/
def normSq (q : Quaternion ℝ) : ℝ :=
  q.re ^ 2 + q.imI ^ 2 + q.imJ ^ 2 + q.imK ^ 2

/-- Quaternion norm (`Eigen .norm`). -/
def quatNorm (q : Quaternion ℝ) : ℝ :=
  Real.sqrt (normSq q)

/-- Quaternion normalization (`Eigen .normalize`); a zero quaternion maps to
zero under Lean's `1/0 = 0` convention. -/
def normalize (q : Quaternion ℝ) : Quaternion ℝ :=
  (1 / quatNorm q) • q

/-- One first-order attitude integration step followed by renormalization,
exactly the three statements
`Quaterniond quaternion(0, w0, w1, w2); attitudeDelta = attitude * quaternion;`
`attitude.coeffs += attitudeDelta.coeffs * 0.5 * dt; attitude.normalize()`
shared by `calculateNewState` and `calibrate`. -/
def attitudeStep (q : Quaternion ℝ) (w : Vec3) (dt : ℝ) : Quaternion ℝ :=
  normalize (q + (0.5 * dt) • (q * quatMk 0 (w 0) (w 1) (w 2)))

/-- Rotation matrix of a quaternion, the Eigen `toRotationMatrix` formula
(which assumes a unit quaternion). -/
def toRotationMatrix (q : Quaternion ℝ) : Matrix (Fin 3) (Fin 3) ℝ :=
  !![1 - 2 * (q.imJ ^ 2 + q.imK ^ 2), 2 * (q.imI * q.imJ - q.re * q.imK),
       2 * (q.imI * q.imK + q.re * q.imJ);
     2 * (q.imI * q.imJ + q.re * q.imK), 1 - 2 * (q.imI ^ 2 + q.imK ^ 2),
       2 * (q.imJ * q.imK - q.re * q.imI);
     2 * (q.imI * q.imK - q.re * q.imJ), 2 * (q.imJ * q.imK + q.re * q.imI),
       1 - 2 * (q.imI ^ 2 + q.imJ ^ 2)]

/-- The simulator's `calculateRotationMatrix`:
`state_.attitude.toRotationMatrix().transpose()`. -/
def calculateRotationMatrix (q : Quaternion ℝ) : Matrix (Fin 3) (Fin 3) ℝ :=
  (toRotationMatrix q)ᵀ

/-- Physical parameters (`params_`), loaded once by `loadParams`. -/
structure VtolParams where
  mass : ℝ
  gravity : ℝ
  atmoRho : ℝ
  wingArea : ℝ
  characteristicLength : ℝ
  propellersLocation : Fin 5 → Vec3
  actuatorMin : Fin 8 → ℝ
  actuatorMax : Fin 8 → ℝ
  inertia : Matrix (Fin 3) (Fin 3) ℝ

/-- Aerodynamics/propulsion tables (`tables_`), loaded once by `loadTables`. -/
structure AeroTables where
  CS_rudder : MatrixD
  CS_beta : MatrixD
  AoS : MatrixD
  actuator : MatrixD
  airspeed : MatrixD
  CLPolynomial : MatrixD
  CSPolynomial : MatrixD
  CDPolynomial : MatrixD
  CmxPolynomial : MatrixD
  CmyPolynomial : MatrixD
  CmzPolynomial : MatrixD
  CmxAileron : MatrixD
  CmyElevator : MatrixD
  CmzRudder : MatrixD
  prop : MatrixD
  actuatorTimeConstants : Fin 8 → ℝ

/-- The mutable simulator state (`state_`), restricted to the fields the
verified claims read (see the module header). -/
structure VtolState where
  position : Vec3
  attitude : Quaternion ℝ
  linearVel : Vec3
  angularVel : Vec3
  Fspecific : Vec3
  motorsRpm : Fin 5 → ℝ
  initialAttitude : Quaternion ℝ
  prevActuators : Fin 8 → ℝ
  crntActuators : Fin 8 → ℝ
  angularAccel : Vec3
  linearAccel : Vec3

/-- The source's `calculateDynamicPressure`:
`params_.atmoRho * airSpeedMod * airSpeedMod * params_.wingArea`. -/
def calculateDynamicPressure (p : VtolParams) (airSpeedMod : ℝ) : ℝ :=
  p.atmoRho * airSpeedMod * airSpeedMod * p.wingArea

/-- The source's `calculatePolynomialUsingTable`.  The output vector (size
`coeffsRows`, contents `coeffs`) is returned unchanged together with `false`
on any of the three guards; on success the first `cols - 1` entries are
replaced by the interpolated row coefficients. -/
def calculatePolynomialUsingTable (table : MatrixD) (airSpeedMod : ℝ)
    (coeffsRows : ℕ) (coeffs : ℕ → ℝ) : Bool × (ℕ → ℝ) :=
  if table.cols < 2 ∨ table.rows < 2 ∨ coeffsRows < table.cols - 1 then
    (false, coeffs)
  else
    let prevRowIdx := tablePrevIdx table airSpeedMod
    if prevRowIdx + 2 > table.rows then
      (false, coeffs)
    else
      let nextRowIdx := prevRowIdx + 1
      let airspeedStep := table.entry nextRowIdx 0 - table.entry prevRowIdx 0
      if |airspeedStep| < 0.001 then
        (false, coeffs)
      else
        let delta := (airSpeedMod - table.entry prevRowIdx 0) / airspeedStep
        (true, fun k =>
          if k < table.cols - 1 then
            lerp (table.entry prevRowIdx (k + 1)) (table.entry nextRowIdx (k + 1)) delta
          else coeffs k)

/-- The source's `calculateCLPolynomial` wrapper. -/
def calculateCLPolynomial (t : AeroTables) (airSpeedMod : ℝ)
    (coeffsRows : ℕ) (coeffs : ℕ → ℝ) : Bool × (ℕ → ℝ) :=
  calculatePolynomialUsingTable t.CLPolynomial airSpeedMod coeffsRows coeffs

/-- The source's `calculateCSPolynomial` wrapper. -/
def calculateCSPolynomial (t : AeroTables) (airSpeedMod : ℝ)
    (coeffsRows : ℕ) (coeffs : ℕ → ℝ) : Bool × (ℕ → ℝ) :=
  calculatePolynomialUsingTable t.CSPolynomial airSpeedMod coeffsRows coeffs

/-- The source's `calculateCDPolynomial` wrapper. -/
def calculateCDPolynomial (t : AeroTables) (airSpeedMod : ℝ)
    (coeffsRows : ℕ) (coeffs : ℕ → ℝ) : Bool × (ℕ → ℝ) :=
  calculatePolynomialUsingTable t.CDPolynomial airSpeedMod coeffsRows coeffs

/-- The source's `calculateCmxPolynomial` wrapper. -/
def calculateCmxPolynomial (t : AeroTables) (airSpeedMod : ℝ)
    (coeffsRows : ℕ) (coeffs : ℕ → ℝ) : Bool × (ℕ → ℝ) :=
  calculatePolynomialUsingTable t.CmxPolynomial airSpeedMod coeffsRows coeffs

/-- The source's `calculateCmyPolynomial` wrapper. -/
def calculateCmyPolynomial (t : AeroTables) (airSpeedMod : ℝ)
    (coeffsRows : ℕ) (coeffs : ℕ → ℝ) : Bool × (ℕ → ℝ) :=
  calculatePolynomialUsingTable t.CmyPolynomial airSpeedMod coeffsRows coeffs

/-- The source's `calculateCmzPolynomial` wrapper. -/
def calculateCmzPolynomial (t : AeroTables) (airSpeedMod : ℝ)
    (coeffsRows : ℕ) (coeffs : ℕ → ℝ) : Bool × (ℕ → ℝ) :=
  calculatePolynomialUsingTable t.CmzPolynomial airSpeedMod coeffsRows coeffs

/-- The source's bilinear `griddata` member function (coefficient tables are
looked up by their first column of breakpoints). -/
def griddata (x y z : MatrixD) (x_value y_value : ℝ) : ℝ :=
  let x1_idx := tablePrevIdx x x_value
  let y1_idx := tablePrevIdx y y_value
  let x2_idx := x1_idx + 1
  let y2_idx := y1_idx + 1
  let Q11 := z.entry y1_idx x1_idx
  let Q12 := z.entry y2_idx x1_idx
  let Q21 := z.entry y1_idx x2_idx
  let Q22 := z.entry y2_idx x2_idx
  let R1 := ((x.entry x2_idx 0 - x_value) * Q11 + (x_value - x.entry x1_idx 0) * Q21) /
      (x.entry x2_idx 0 - x.entry x1_idx 0)
  let R2 := ((x.entry x2_idx 0 - x_value) * Q12 + (x_value - x.entry x1_idx 0) * Q22) /
      (x.entry x2_idx 0 - x.entry x1_idx 0)
  ((y.entry y2_idx 0 - y_value) * R1 + (y_value - y.entry y1_idx 0) * R2) /
      (y.entry y2_idx 0 - y.entry y1_idx 0)

/-- The source's `calculateCSRudder` (note the negated actuator axis). -/
def calculateCSRudder (t : AeroTables) (rudder_pos airspeed : ℝ) : ℝ :=
  griddata (MatrixD.neg t.actuator) t.airspeed t.CS_rudder rudder_pos airspeed

/-- The source's `calculateCSBeta` (note the negated sideslip axis). -/
def calculateCSBeta (t : AeroTables) (AoS_deg airspeed : ℝ) : ℝ :=
  griddata (MatrixD.neg t.AoS) t.airspeed t.CS_beta AoS_deg airspeed

/-- The source's `calculateCmxAileron`. -/
def calculateCmxAileron (t : AeroTables) (aileron_pos airspeed : ℝ) : ℝ :=
  griddata t.actuator t.airspeed t.CmxAileron aileron_pos airspeed

/-- The source's `calculateCmyElevator`. -/
def calculateCmyElevator (t : AeroTables) (elevator_pos airspeed : ℝ) : ℝ :=
  griddata t.actuator t.airspeed t.CmyElevator elevator_pos airspeed

/-- The source's `calculateCmzRudder`. -/
def calculateCmzRudder (t : AeroTables) (rudder_pos airspeed : ℝ) : ℝ :=
  griddata t.actuator t.airspeed t.CmzRudder rudder_pos airspeed

/-- The source's `calculateAerodynamics`, returning `(Faero, Maero)`.
`coeffs0` stands for the indeterminate initial contents of the local
`Eigen::VectorXd polynomialCoeffs(7)`, which is threaded (and possibly left
unchanged by a failed table interpolation) through the six polynomial
lookups exactly as in the source.  The diagnostic state writes (`Flift`,
`Fdrug`, `Fside`, `Msteer`, `Mairspeed`) are omitted. -/
def calculateAerodynamics (t : AeroTables) (p : VtolParams) (airspeed : Vec3)
    (AoA AoS aileron_pos elevator_pos rudder_pos : ℝ) (coeffs0 : ℕ → ℝ) :
    Vec3 × Vec3 :=
  let AoA_deg := clamp (AoA * 180 / 3.1415) (-45) 45
  let AoS_deg := clamp (AoS * 180 / 3.1415) (-90) 90
  let airspeedMod := norm3 airspeed
  let dynamicPressure := calculateDynamicPressure p airspeedMod
  let airspeedModClamped := clamp (norm3 airspeed) 5 40
  let r1 := calculateCLPolynomial t airspeedModClamped 7 coeffs0
  let CL := polyval 7 r1.2 AoA_deg
  let FL := CL • cross3 ![0, 1, 0] (normalized3 airspeed)
  let r2 := calculateCSPolynomial t airspeedModClamped 7 r1.2
  let CS := polyval 7 r2.2 AoA_deg
  let CS_rudder := calculateCSRudder t rudder_pos airspeedModClamped
  let CS_beta := calculateCSBeta t AoS_deg airspeedModClamped
  let FS := (CS + CS_rudder + CS_beta) • cross3 airspeed (cross3 ![0, 1, 0] (normalized3 airspeed))
  let r3 := calculateCDPolynomial t airspeedModClamped 7 r2.2
  let CD := polyval 5 r3.2 AoA_deg
  let FD := CD • normalized3 ((-1 : ℝ) • airspeed)
  let Faero := (0.5 * dynamicPressure) • (FL + FS + FD)
  let r4 := calculateCmxPolynomial t airspeedModClamped 7 r3.2
  let Cmx := polyval 7 r4.2 AoA_deg
  let r5 := calculateCmyPolynomial t airspeedModClamped 7 r4.2
  let Cmy := polyval 7 r5.2 AoA_deg
  let r6 := calculateCmzPolynomial t airspeedModClamped 7 r5.2
  let Cmz := -polyval 7 r6.2 AoA_deg
  let Cmx_aileron := calculateCmxAileron t aileron_pos airspeedModClamped
  let Cmy_elevator := calculateCmyElevator t |elevator_pos| airspeedModClamped
  let Cmz_rudder := calculateCmzRudder t rudder_pos airspeedModClamped
  let Mx := Cmx + Cmx_aileron * aileron_pos
  let My := Cmy + Cmy_elevator * elevator_pos
  let Mz := Cmz + Cmz_rudder * rudder_pos
  let Maero := (0.5 * dynamicPressure * p.characteristicLength) • ![Mx, My, Mz]
  (Faero, Maero)

/-- The source's `thruster`: finds the bracketing rows of the propeller
table and interpolates `(thrust, torque, rpm)`; when the bracketing fails
(`next_idx ≥ rows`) the out-parameters are left untouched, modelled by
`none`. -/
def thruster (t : AeroTables) (actuator : ℝ) : Option (ℝ × ℝ × ℝ) :=
  let prev_idx := tablePrevIdx t.prop actuator
  let next_idx := prev_idx + 1
  if next_idx < t.prop.rows then
    let tfrac := (actuator - t.prop.entry prev_idx 0) /
        (t.prop.entry next_idx 0 - t.prop.entry prev_idx 0)
    some (lerp (t.prop.entry prev_idx 1) (t.prop.entry next_idx 1) tfrac,
          lerp (t.prop.entry prev_idx 2) (t.prop.entry next_idx 2) tfrac,
          lerp (t.prop.entry prev_idx 4) (t.prop.entry next_idx 4) tfrac)
  else
    none

/-- The source's `calculateAngularAccel`:
`inertia.inverse() * (moment - prevAngVel.cross(inertia * prevAngVel))`. -/
def calculateAngularAccel (inertia : Matrix (Fin 3) (Fin 3) ℝ)
    (moment prevAngVel : Vec3) : Vec3 :=
  inertia⁻¹.mulVec (moment - cross3 prevAngVel (inertia.mulVec prevAngVel))

/-- The source's `land`: zero velocities and rpm, ground altitude, reset
attitude to the stored initial reference, gravity-only specific force. -/
def land (p : VtolParams) (s : VtolState) : VtolState :=
  { s with
    Fspecific := ![0, 0, -p.gravity]
    linearVel := ![0, 0, 0]
    position := fun i => if i = 2 then 0 else s.position i
    attitude := s.initialAttitude
    angularVel := ![0, 0, 0]
    motorsRpm := fun _ => 0 }

/-- Per-motor `(thrust, torque, rpm)` triple produced by the `thruster`
calls at the top of `calculateNewState`.  The C++ locals `thrust`, `torque`
are uninitialized Eigen vectors; the untouched-on-failure case is modelled
as zero thrust/torque while the rpm out-parameter is the state's stored
`motorsRpm` entry, matching the in-place write of the source. -/
def motorTTR (t : AeroTables) (actuator : ℕ → ℝ) (s : VtolState) (i : Fin 5) :
    ℝ × ℝ × ℝ :=
  match thruster t (actuator i) with
  | some v => v
  | none => (0, 0, s.motorsRpm i)

/-- Per-motor force vector (`state_.Fmotors`): lift rotors push along `-z`,
the forward engine (index 4) along `+x`. -/
def Fmotor (t : AeroTables) (actuator : ℕ → ℝ) (s : VtolState) (i : Fin 5) : Vec3 :=
  if (i : ℕ) = 4 then ![(motorTTR t actuator s i).1, 0, 0]
  else ![0, 0, -(motorTTR t actuator s i).1]

/-- Per-motor reaction torque (`motorTorquesInBodyCS`): rotors 0,1 yield
`+z` torque, rotors 2,3 yield `-z`, the forward engine `-x`. -/
def motorTorqueBody (t : AeroTables) (actuator : ℕ → ℝ) (s : VtolState) (i : Fin 5) : Vec3 :=
  if (i : ℕ) = 4 then ![-(motorTTR t actuator s i).2.1, 0, 0]
  else if (i : ℕ) = 2 ∨ (i : ℕ) = 3 then ![0, 0, -(motorTTR t actuator s i).2.1]
  else ![0, 0, (motorTTR t actuator s i).2.1]

/-- Per-motor total body moment (`state_.Mmotors`): reaction torque plus the
moment of the thrust about the motor arm. -/
def Mmotor (p : VtolParams) (t : AeroTables) (actuator : ℕ → ℝ) (s : VtolState)
    (i : Fin 5) : Vec3 :=
  motorTorqueBody t actuator s i + cross3 (p.propellersLocation i) (Fmotor t actuator s i)

/-- Total body moment: `std::accumulate(Mmotors, Maero)`. -/
def MtotalInBodyCS (p : VtolParams) (t : AeroTables) (Maero : Vec3)
    (actuator : ℕ → ℝ) (s : VtolState) : Vec3 :=
  Maero + Finset.sum Finset.univ (fun i => Mmotor p t actuator s i)

/-- Sum of the motor forces: `std::accumulate(Fmotors, Faero)` minus the
aerodynamic part. -/
def sumFmotors (t : AeroTables) (actuator : ℕ → ℝ) (s : VtolState) : Vec3 :=
  Finset.sum Finset.univ (fun i => Fmotor t actuator s i)

/-- The rpm values written in place into `state_.motorsRpm`. -/
def motorsRpmNew (t : AeroTables) (actuator : ℕ → ℝ) (s : VtolState) (i : Fin 5) : ℝ :=
  (motorTTR t actuator s i).2.2

/-- The integration part of the source's `calculateNewState`, up to (but not
including) the ground-contact branch; returns the integrated state together
with the freshly computed specific force (the local `Fspecific`). -/
def calculateNewStatePre (p : VtolParams) (t : AeroTables) (Maero Faero : Vec3)
    (actuator : ℕ → ℝ) (dt_sec : ℝ) (s : VtolState) : VtolState × Vec3 :=
  let angularAccel := calculateAngularAccel p.inertia (MtotalInBodyCS p t Maero actuator s) s.angularVel
  let angularVel := s.angularVel + dt_sec • angularAccel
  let attitude := attitudeStep s.attitude angularVel dt_sec
  let rotationMatrix := calculateRotationMatrix attitude
  let Fspecific := (1 / p.mass) • (Faero + sumFmotors t actuator s)
  let Ftotal := p.mass • (Fspecific + rotationMatrix.mulVec ![0, 0, p.gravity])
  let linearAccel := (1 / p.mass) • (rotationMatrix⁻¹.mulVec Ftotal)
  let linearVel := s.linearVel + dt_sec • linearAccel
  let position := s.position + dt_sec • linearVel
  ({ s with
      angularAccel := angularAccel
      angularVel := angularVel
      attitude := attitude
      motorsRpm := motorsRpmNew t actuator s
      linearAccel := linearAccel
      linearVel := linearVel
      position := position }, Fspecific)

/-- The source's `calculateNewState`: integrate one tick, then either reset
through `land` (integrated altitude at or below ground, `position[2] ≥ 0` in
the down-positive frame) or retain the fresh specific force. -/
def calculateNewState (p : VtolParams) (t : AeroTables) (Maero Faero : Vec3)
    (actuator : ℕ → ℝ) (dt_sec : ℝ) (s : VtolState) : VtolState :=
  let pr := calculateNewStatePre p t Maero Faero actuator dt_sec s
  if pr.1.position 2 ≥ 0 then land p pr.1 else { pr.1 with Fspecific := pr.2 }

/-- The source's `updateActuators`: per-channel first-order lag with the
literal constant `2.71` as the exponential base (`pow(2.71, -dt/τ)`), and
the previous/current filtered-vector rotation.  Returns the filtered command
vector (the in-place update of `cmd`) together with the updated state. -/
def updateActuators (t : AeroTables) (cmd : Fin 8 → ℝ) (dtSecs : ℝ) (s : VtolState) :
    (Fin 8 → ℝ) × VtolState :=
  let prev := s.crntActuators
  let newCmd := fun i =>
    cmd i + (prev i - cmd i) * (1 - (2.71 : ℝ) ^ (-dtSecs / t.actuatorTimeConstants i))
  (newCmd, { s with prevActuators := prev, crntActuators := newCmd })

/-- The source's `mapCmdToActuatorStandardVTOL`.  A command vector whose
length differs from 8 is returned unchanged; otherwise channels 0–4 are
clamped to `[0,1]` and scaled by `actuatorMax`, channels 5–7 are clamped to
`[-1,1]` and scaled by `actuatorMax` (nonnegative values) or
`-actuatorMin` (negative values). -/
def mapCmdToActuatorStandardVTOL (p : VtolParams) (cmd : List ℝ) : List ℝ :=
  if cmd.length ≠ 8 then cmd
  else
    let c := fun (i : ℕ) => cmd.getD i 0
    let copterChan := fun (v : ℝ) (i : Fin 8) => clamp v 0 1 * p.actuatorMax i
    let surfaceChan := fun (v : ℝ) (i : Fin 8) =>
      clamp v (-1) 1 * (if clamp v (-1) 1 ≥ 0 then p.actuatorMax i else -p.actuatorMin i)
    [copterChan (c 0) 0, copterChan (c 1) 1, copterChan (c 2) 2, copterChan (c 3) 3,
     copterChan (c 4) 4,
     surfaceChan ((c 5 - c 6) / 2) 5, surfaceChan (-c 7) 6, surfaceChan 0 7]

/-- The source's `mapCmdToActuatorInnoVTOL`.  A command vector whose length
differs from 8 is returned unchanged; otherwise the channels are reordered,
the aileron channel is re-centered from `[0,1]` to `[-1,1]`, and the same
clamp-and-scale post-processing as the standard variant is applied. -/
def mapCmdToActuatorInnoVTOL (p : VtolParams) (cmd : List ℝ) : List ℝ :=
  if cmd.length ≠ 8 then cmd
  else
    let c := fun (i : ℕ) => cmd.getD i 0
    let copterChan := fun (v : ℝ) (i : Fin 8) => clamp v 0 1 * p.actuatorMax i
    let surfaceChan := fun (v : ℝ) (i : Fin 8) =>
      clamp v (-1) 1 * (if clamp v (-1) 1 ≥ 0 then p.actuatorMax i else -p.actuatorMin i)
    [copterChan (c 0) 0, copterChan (c 1) 1, copterChan (c 2) 2, copterChan (c 3) 3,
     copterChan (c 7) 4,
     surfaceChan ((c 4 - 0.5) * 2) 5, surfaceChan (c 5) 6, surfaceChan (c 6) 7]

/-- The source's `getMotorsRpm`: pushes the five stored rpm values onto the
caller's vector and returns `true`. -/
def getMotorsRpm (s : VtolState) (motorsRpm : List ℝ) : Bool × List ℝ :=
  (true, motorsRpm ++ [s.motorsRpm 0, s.motorsRpm 1, s.motorsRpm 2, s.motorsRpm 3,
                       s.motorsRpm 4])

/-- The `CalibrationType_t` enumeration as matched by `calibrate`. -/
inductive CalibrationType where
  | WORK_MODE
  | MAG_1_NORMAL
  | MAG_2_OVERTURNED
  | MAG_3_HEAD_DOWN
  | MAG_4_HEAD_UP
  | MAG_5_TURNED_LEFT
  | MAG_6_TURNED_RIGHT
  | MAG_7_ARDUPILOT
  | MAG_8_ARDUPILOT
  | MAG_9_ARDUPILOT
  | ACC_1_NORMAL
  | ACC_2_OVERTURNED
  | ACC_3_HEAD_DOWN
  | ACC_4_HEAD_UP
  | ACC_5_TURNED_LEFT
  | ACC_6_TURNED_RIGHT
  | AIRSPEED
  deriving DecidableEq

/-- The constant `MAG_ROTATION_SPEED = 2 * 3.1415 / 10` of `calibrate`. -/
def MAG_ROTATION_SPEED : ℝ := 2 * 3.1415 / 10

/-- The source's `calculateNormalForceWithoutMass`:
`calculateRotationMatrix() * Vector3d(0, 0, -gravity)`. -/
def calculateNormalForceWithoutMass (p : VtolParams) (q : Quaternion ℝ) : Vec3 :=
  (calculateRotationMatrix q).mulVec ![0, 0, -p.gravity]

/-- The attitude/angular-velocity assignments of `calibrate`'s switch
statement; the `prevCalibrationType` static is passed explicitly.  Modes
guarded by `if(prevCalibrationType != calType)` keep the incoming attitude
on a repeated call; `AIRSPEED` assigns unconditionally and the three
ardupilot magnetometer modes never assign an attitude. -/
def calibrateSwitch (calType prevCalType : CalibrationType) (s : VtolState) : VtolState :=
  match calType with
  | .WORK_MODE => { s with attitude := quatMk 1 0 0 0, angularVel := ![0, 0, 0] }
  | .MAG_1_NORMAL =>
      { s with attitude := if prevCalType ≠ calType then quatMk 1 0 0 0 else s.attitude,
               angularVel := ![0, 0, -MAG_ROTATION_SPEED] }
  | .MAG_2_OVERTURNED =>
      { s with attitude := if prevCalType ≠ calType then quatMk 0 1 0 0 else s.attitude,
               angularVel := ![0, 0, MAG_ROTATION_SPEED] }
  | .MAG_3_HEAD_DOWN =>
      { s with attitude := if prevCalType ≠ calType then quatMk 0.707 0 (-0.707) 0 else s.attitude,
               angularVel := ![-MAG_ROTATION_SPEED, 0, 0] }
  | .MAG_4_HEAD_UP =>
      { s with attitude := if prevCalType ≠ calType then quatMk 0.707 0 0.707 0 else s.attitude,
               angularVel := ![MAG_ROTATION_SPEED, 0, 0] }
  | .MAG_5_TURNED_LEFT =>
      { s with attitude := if prevCalType ≠ calType then quatMk 0.707 (-0.707) 0 0 else s.attitude,
               angularVel := ![0, MAG_ROTATION_SPEED, 0] }
  | .MAG_6_TURNED_RIGHT =>
      { s with attitude := if prevCalType ≠ calType then quatMk 0.707 0.707 0 0 else s.attitude,
               angularVel := ![0, -MAG_ROTATION_SPEED, 0] }
  | .MAG_7_ARDUPILOT =>
      { s with angularVel := ![MAG_ROTATION_SPEED, MAG_ROTATION_SPEED, MAG_ROTATION_SPEED] }
  | .MAG_8_ARDUPILOT =>
      { s with angularVel := ![-MAG_ROTATION_SPEED, MAG_ROTATION_SPEED, MAG_ROTATION_SPEED] }
  | .MAG_9_ARDUPILOT =>
      { s with angularVel := ![MAG_ROTATION_SPEED, -MAG_ROTATION_SPEED, MAG_ROTATION_SPEED] }
  | .ACC_1_NORMAL =>
      { s with attitude := if prevCalType ≠ calType then quatMk 1 0 0 0 else s.attitude,
               angularVel := ![0, 0, 0] }
  | .ACC_2_OVERTURNED =>
      { s with attitude := if prevCalType ≠ calType then quatMk 0 1 0 0 else s.attitude,
               angularVel := ![0, 0, 0] }
  | .ACC_3_HEAD_DOWN =>
      { s with attitude := if prevCalType ≠ calType then quatMk 0.707 0 (-0.707) 0 else s.attitude,
               angularVel := ![0, 0, 0] }
  | .ACC_4_HEAD_UP =>
      { s with attitude := if prevCalType ≠ calType then quatMk 0.707 0 0.707 0 else s.attitude,
               angularVel := ![0, 0, 0] }
  | .ACC_5_TURNED_LEFT =>
      { s with attitude := if prevCalType ≠ calType then quatMk 0.707 (-0.707) 0 0 else s.attitude,
               angularVel := ![0, 0, 0] }
  | .ACC_6_TURNED_RIGHT =>
      { s with attitude := if prevCalType ≠ calType then quatMk 0.707 0.707 0 0 else s.attitude,
               angularVel := ![0, 0, 0] }
  | .AIRSPEED =>
      { s with attitude := quatMk 1 0 0 0, angularVel := ![0, 0, 0],
               linearVel := fun i => if i = 0 then 10 else if i = 1 then 10 else s.linearVel i }

/-- The source's `calibrate`: zero the velocity and altitude, apply the
mode switch, then one fixed-small-step (`DELTA_TIME = 0.001`) attitude
integration with renormalization.  Returns the new state together with the
updated `prevCalibrationType` static. -/
def calibrate (p : VtolParams) (calType prevCalType : CalibrationType) (s0 : VtolState) :
    VtolState × CalibrationType :=
  let s1 := { s0 with
    linearVel := ![0, 0, 0]
    position := fun i => if i = 2 then 0 else s0.position i }
  let s2 := calibrateSwitch calType prevCalType s1
  let s3 := { s2 with Fspecific := calculateNormalForceWithoutMass p s2.attitude }
  ({ s3 with attitude := attitudeStep s2.attitude s2.angularVel 0.001 }, calType)

/-!
Concrete fixtures used by the counterexamples and witnesses below.
-/

/-- Degenerate all-zero table used for fields irrelevant to a scenario. -/
def emptyTable : MatrixD := ⟨0, 0, fun _ _ => 0⟩

/-- Two-row propeller table whose row at command 0 is all zeros, so that a
zero command yields zero thrust, torque and rpm (as the repository's
`thrusterFirstZeroCmd` test demands of the real table). -/
def propTable0 : MatrixD :=
  ⟨2, 5, fun i j => if i = 0 then 0 else if j = 0 then 1 else 0⟩

/-- Table fixture: unit time constants, the zero-command propeller table,
and empty aerodynamic tables. -/
def tables0 : AeroTables :=
  ⟨emptyTable, emptyTable, emptyTable, emptyTable, emptyTable, emptyTable, emptyTable,
   emptyTable, emptyTable, emptyTable, emptyTable, emptyTable, emptyTable, emptyTable,
   propTable0, fun _ => 1⟩

/-- Parameter fixture: unit mass/gravity/density/area/length, motors at the
origin, unit actuator limits, identity inertia. -/
def params0 : VtolParams :=
  ⟨1, 1, 1, 1, 1, fun _ => ![0, 0, 0], fun _ => 1, fun _ => 1, 1⟩

/-- State fixture for the attitude-norm counterexample: one meter below the
ground threshold, identity-direction attitude, and the non-unit initial
reference attitude `(1, 0.2, 0.1, 0.05)` taken from the repository's own
`calculateNewStateFirstCaseOnlyAttitude` test. -/
def state0 : VtolState :=
  ⟨![0, 0, 1], quatMk 1 0 0 0, ![0, 0, 0], ![0, 0, 0], ![0, 0, -1], fun _ => 0,
   quatMk 1 0.2 0.1 0.05, fun _ => 0, fun _ => 0, ![0, 0, 0], ![0, 0, 0]⟩

/-- State fixture sitting at rest on the ground with a unit initial
reference attitude. -/
def stateL : VtolState :=
  ⟨![0, 0, 0], quatMk 1 0 0 0, ![0, 0, 0], ![0, 0, 0], ![0, 0, -1], fun _ => 0,
   quatMk 1 0 0 0, fun _ => 0, fun _ => 0, ![0, 0, 0], ![0, 0, 0]⟩

/-- State fixture whose current filtered actuator vector is all ones. -/
def stateC1 : VtolState :=
  { state0 with crntActuators := fun _ => 1 }

/-- The all-zero raw command vector (8 channels). -/
def zeroCmd : Fin 8 → ℝ := fun _ => 0

/-- Counter-table for the polynomial-interpolation counterexample: two rows,
two columns, well-separated breakpoints 0 and 1. -/
def tableT2 : MatrixD :=
  ⟨2, 2, fun i j => if i = 0 then (if j = 0 then 0 else 5) else (if j = 0 then 1 else 7)⟩

/-- The landed-state invariant of the ground-contact claim: zero velocities,
attitude at the stored initial reference, zero altitude. -/
def landedInvariant (s : VtolState) : Prop :=
  s.linearVel = ![0, 0, 0] ∧ s.angularVel = ![0, 0, 0] ∧
    s.attitude = s.initialAttitude ∧ s.position 2 = 0

/-- State fixture whose attitude is the pure-i quaternion, distinguishable
from every fixed calibration attitude reachable with zero angular rate. -/
def stateA : VtolState :=
  { state0 with attitude := quatMk 0 1 0 0 }

/-- The calibration modes whose attitude assignment is guarded by the
`prevCalibrationType != calType` check. -/
def guardedModes : List CalibrationType :=
  [.MAG_1_NORMAL, .MAG_2_OVERTURNED, .MAG_3_HEAD_DOWN, .MAG_4_HEAD_UP,
   .MAG_5_TURNED_LEFT, .MAG_6_TURNED_RIGHT, .ACC_1_NORMAL, .ACC_2_OVERTURNED,
   .ACC_3_HEAD_DOWN, .ACC_4_HEAD_UP, .ACC_5_TURNED_LEFT, .ACC_6_TURNED_RIGHT]

/-- The ardupilot magnetometer calibration modes, whose switch cases assign
an angular rate but never an attitude. -/
def ardupilotModes : List CalibrationType :=
  [.MAG_7_ARDUPILOT, .MAG_8_ARDUPILOT, .MAG_9_ARDUPILOT]

/-- The mode-specific fixed attitude quaternion assigned on entry into a
guarded calibration mode (arbitrary identity value on the other modes,
which assign none or assign unconditionally). -/
def guardedFixedAttitude : CalibrationType → Quaternion ℝ
  | .MAG_1_NORMAL => quatMk 1 0 0 0
  | .MAG_2_OVERTURNED => quatMk 0 1 0 0
  | .MAG_3_HEAD_DOWN => quatMk 0.707 0 (-0.707) 0
  | .MAG_4_HEAD_UP => quatMk 0.707 0 0.707 0
  | .MAG_5_TURNED_LEFT => quatMk 0.707 (-0.707) 0 0
  | .MAG_6_TURNED_RIGHT => quatMk 0.707 0.707 0 0
  | .ACC_1_NORMAL => quatMk 1 0 0 0
  | .ACC_2_OVERTURNED => quatMk 0 1 0 0
  | .ACC_3_HEAD_DOWN => quatMk 0.707 0 (-0.707) 0
  | .ACC_4_HEAD_UP => quatMk 0.707 0 0.707 0
  | .ACC_5_TURNED_LEFT => quatMk 0.707 (-0.707) 0 0
  | .ACC_6_TURNED_RIGHT => quatMk 0.707 0.707 0 0
  | _ => quatMk 1 0 0 0

/-!
Helper lemmas.
-/

theorem tablePrevIdx_add_two_le (table : MatrixD) (v : ℝ) (h : 2 ≤ table.rows) :
    tablePrevIdx table v + 2 ≤ table.rows := by
  unfold tablePrevIdx findPrevRowIdxInMonotonicSequence findPrevRowIdxInIncreasingSequence
    findPrevRowIdxInDecreasingSequence
  split
  · have h1 := Nat.min_le_right (countBelow (tableBreakpoint table) v table.rows - 1)
      (table.rows - 2)
    omega
  · have h1 := Nat.min_le_right (countAbove (tableBreakpoint table) v table.rows - 1)
      (table.rows - 2)
    omega

theorem tableT2_prevIdx : tablePrevIdx tableT2 0.5 = 0 := by
  norm_num [tablePrevIdx, findPrevRowIdxInMonotonicSequence,
    findPrevRowIdxInIncreasingSequence, findPrevRowIdxInDecreasingSequence,
    countBelow, countAbove, tableBreakpoint, tableT2]

theorem tableT2_step : tableStep tableT2 0.5 = 1 := by
  rw [tableStep, tableT2_prevIdx]
  norm_num [tableT2]

theorem normSq_nonneg (q : Quaternion ℝ) : 0 ≤ normSq q := by
  unfold normSq
  positivity

theorem normSq_mul (a b : Quaternion ℝ) : normSq (a * b) = normSq a * normSq b := by
  simp only [normSq, Quaternion.mul_re, Quaternion.mul_imI, Quaternion.mul_imJ,
    Quaternion.mul_imK]
  ring

theorem normSq_smul (c : ℝ) (q : Quaternion ℝ) : normSq (c • q) = c ^ 2 * normSq q := by
  simp only [normSq, Quaternion.smul_re, Quaternion.smul_imI, Quaternion.smul_imJ,
    Quaternion.smul_imK, smul_eq_mul]
  ring

theorem normalize_of_normSq_one (q : Quaternion ℝ) (h : normSq q = 1) : normalize q = q := by
  unfold normalize quatNorm
  rw [h, Real.sqrt_one]
  norm_num

theorem normSq_normalize (q : Quaternion ℝ) (h : normSq q ≠ 0) :
    normSq (normalize q) = 1 := by
  unfold normalize
  rw [normSq_smul]
  unfold quatNorm
  rw [div_pow, one_pow, Real.sq_sqrt (normSq_nonneg q)]
  field_simp

theorem normSq_quatMk (w x y z : ℝ) :
    normSq (quatMk w x y z) = w ^ 2 + x ^ 2 + y ^ 2 + z ^ 2 := rfl

theorem quatMk_zero : quatMk 0 0 0 0 = (0 : Quaternion ℝ) := rfl

theorem attitudeStep_factor (q : Quaternion ℝ) (w : Vec3) (dt : ℝ) :
    q + (0.5 * dt) • (q * quatMk 0 (w 0) (w 1) (w 2)) =
      q * (1 + (0.5 * dt) • quatMk 0 (w 0) (w 1) (w 2)) := by
  rw [mul_add, mul_one, mul_smul_comm]

theorem normSq_one_add_smul_pure (c : ℝ) (w : Vec3) :
    normSq (1 + c • quatMk 0 (w 0) (w 1) (w 2)) =
      1 + c ^ 2 * ((w 0) ^ 2 + (w 1) ^ 2 + (w 2) ^ 2) := by
  simp only [normSq, quatMk, Quaternion.add_re, Quaternion.add_imI, Quaternion.add_imJ,
    Quaternion.add_imK, Quaternion.smul_re, Quaternion.smul_imI, Quaternion.smul_imJ,
    Quaternion.smul_imK, Quaternion.one_re, Quaternion.one_imI, Quaternion.one_imJ,
    Quaternion.one_imK, smul_eq_mul]
  ring

theorem normSq_attitudeStep (q : Quaternion ℝ) (w : Vec3) (dt : ℝ)
    (hq : normSq q ≠ 0) : normSq (attitudeStep q w dt) = 1 := by
  unfold attitudeStep
  apply normSq_normalize
  rw [attitudeStep_factor, normSq_mul, normSq_one_add_smul_pure]
  apply mul_ne_zero hq
  positivity

theorem quatNorm_attitudeStep (q : Quaternion ℝ) (w : Vec3) (dt : ℝ)
    (hq : normSq q ≠ 0) : quatNorm (attitudeStep q w dt) = 1 := by
  unfold quatNorm
  rw [normSq_attitudeStep q w dt hq, Real.sqrt_one]

theorem attitudeStep_zero_vec (q : Quaternion ℝ) (dt : ℝ) :
    attitudeStep q ![0, 0, 0] dt = normalize q := by
  unfold attitudeStep
  norm_num [quatMk_zero]

theorem attitudeStep_zero_vec' (q : Quaternion ℝ) (dt : ℝ) :
    attitudeStep q 0 dt = normalize q := by
  unfold attitudeStep
  norm_num [quatMk_zero]

theorem rot_mul_transpose (q : Quaternion ℝ)
    (h : q.re ^ 2 + q.imI ^ 2 + q.imJ ^ 2 + q.imK ^ 2 = 1) :
    calculateRotationMatrix q * (calculateRotationMatrix q)ᵀ = 1 := by
  show (toRotationMatrix q)ᵀ * ((toRotationMatrix q)ᵀ)ᵀ = 1
  rw [Matrix.transpose_transpose]
  ext i j
  fin_cases i <;> fin_cases j <;>
    (simp only [Matrix.mul_apply, Fin.sum_univ_three, Matrix.transpose_apply]
     simp [toRotationMatrix, Matrix.one_apply])
  · linear_combination (4 * (q.imJ ^ 2 + q.imK ^ 2)) * h
  · linear_combination (-4 * q.imI * q.imJ) * h
  · linear_combination (-4 * q.imI * q.imK) * h
  · linear_combination (-4 * q.imI * q.imJ) * h
  · linear_combination (4 * (q.imI ^ 2 + q.imK ^ 2)) * h
  · linear_combination (-4 * q.imJ * q.imK) * h
  · linear_combination (-4 * q.imI * q.imK) * h
  · linear_combination (-4 * q.imJ * q.imK) * h
  · linear_combination (4 * (q.imI ^ 2 + q.imJ ^ 2)) * h

theorem calcRot_inv_mulVec (q : Quaternion ℝ) (h : normSq q = 1) (v : Vec3) :
    (calculateRotationMatrix q)⁻¹.mulVec ((calculateRotationMatrix q).mulVec v) = v := by
  have h1 : calculateRotationMatrix q * (calculateRotationMatrix q)ᵀ = 1 :=
    rot_mul_transpose q h
  have h2 : (calculateRotationMatrix q)ᵀ * calculateRotationMatrix q = 1 :=
    Matrix.mul_eq_one_comm.mp h1
  rw [Matrix.inv_eq_right_inv h1, Matrix.mulVec_mulVec, h2, Matrix.one_mulVec]

theorem pre_initialAttitude (p : VtolParams) (t : AeroTables) (Ma Fa : Vec3)
    (act : ℕ → ℝ) (dt : ℝ) (s : VtolState) :
    (calculateNewStatePre p t Ma Fa act dt s).1.initialAttitude = s.initialAttitude := rfl

theorem pre_angularVel (p : VtolParams) (t : AeroTables) (Ma Fa : Vec3)
    (act : ℕ → ℝ) (dt : ℝ) (s : VtolState) :
    (calculateNewStatePre p t Ma Fa act dt s).1.angularVel =
      s.angularVel + dt • calculateAngularAccel p.inertia
        (MtotalInBodyCS p t Ma act s) s.angularVel := rfl

theorem pre_attitude (p : VtolParams) (t : AeroTables) (Ma Fa : Vec3)
    (act : ℕ → ℝ) (dt : ℝ) (s : VtolState) :
    (calculateNewStatePre p t Ma Fa act dt s).1.attitude =
      attitudeStep s.attitude
        ((calculateNewStatePre p t Ma Fa act dt s).1.angularVel) dt := rfl

theorem pre_linearVel (p : VtolParams) (t : AeroTables) (Ma Fa : Vec3)
    (act : ℕ → ℝ) (dt : ℝ) (s : VtolState) :
    (calculateNewStatePre p t Ma Fa act dt s).1.linearVel =
      s.linearVel + dt • ((1 / p.mass) •
        ((calculateRotationMatrix
            ((calculateNewStatePre p t Ma Fa act dt s).1.attitude))⁻¹.mulVec
          (p.mass • ((1 / p.mass) • (Fa + sumFmotors t act s) +
            (calculateRotationMatrix
              ((calculateNewStatePre p t Ma Fa act dt s).1.attitude)).mulVec
                ![0, 0, p.gravity])))) := rfl

theorem pre_position (p : VtolParams) (t : AeroTables) (Ma Fa : Vec3)
    (act : ℕ → ℝ) (dt : ℝ) (s : VtolState) :
    (calculateNewStatePre p t Ma Fa act dt s).1.position =
      s.position + dt • (calculateNewStatePre p t Ma Fa act dt s).1.linearVel := rfl

theorem calibrateSwitch_attitude_normSq (calType prevCalType : CalibrationType)
    (s1 : VtolState) (h : normSq s1.attitude ≠ 0) :
    normSq (calibrateSwitch calType prevCalType s1).attitude ≠ 0 := by
  cases calType <;> simp only [calibrateSwitch] <;>
    first
      | exact h
      | (rw [normSq_quatMk]; norm_num)
      | (split <;> first | (rw [normSq_quatMk]; norm_num) | exact h)

theorem vec3_zero : (![0, 0, 0] : Vec3) = 0 := by
  funext j
  fin_cases j <;> rfl

theorem cross3_zero_left (a : Vec3) : cross3 0 a = 0 := by
  funext j
  fin_cases j <;> simp [cross3]

theorem cross3_zero_right (a : Vec3) : cross3 a 0 = 0 := by
  funext j
  fin_cases j <;> simp [cross3]

theorem motorTTR_zero (t : AeroTables) (act : ℕ → ℝ) (s : VtolState) (i : Fin 5)
    (hthr : thruster t 0 = some (0, 0, 0)) (hact : ∀ k, act k = 0) :
    motorTTR t act s i = (0, 0, 0) := by
  simp [motorTTR, hact, hthr]

theorem Fmotor_zero (t : AeroTables) (act : ℕ → ℝ) (s : VtolState) (i : Fin 5)
    (hthr : thruster t 0 = some (0, 0, 0)) (hact : ∀ k, act k = 0) :
    Fmotor t act s i = 0 := by
  unfold Fmotor
  rw [motorTTR_zero t act s i hthr hact]
  split <;> (funext j; fin_cases j <;> simp)

theorem motorTorqueBody_zero (t : AeroTables) (act : ℕ → ℝ) (s : VtolState) (i : Fin 5)
    (hthr : thruster t 0 = some (0, 0, 0)) (hact : ∀ k, act k = 0) :
    motorTorqueBody t act s i = 0 := by
  unfold motorTorqueBody
  rw [motorTTR_zero t act s i hthr hact]
  split
  · funext j; fin_cases j <;> simp
  · split <;> (funext j; fin_cases j <;> simp)

theorem Mmotor_zero (p : VtolParams) (t : AeroTables) (act : ℕ → ℝ) (s : VtolState)
    (i : Fin 5) (hthr : thruster t 0 = some (0, 0, 0)) (hact : ∀ k, act k = 0) :
    Mmotor p t act s i = 0 := by
  unfold Mmotor
  rw [motorTorqueBody_zero t act s i hthr hact, Fmotor_zero t act s i hthr hact,
    cross3_zero_right, add_zero]

theorem MtotalInBodyCS_zero (p : VtolParams) (t : AeroTables) (act : ℕ → ℝ)
    (s : VtolState) (hthr : thruster t 0 = some (0, 0, 0)) (hact : ∀ k, act k = 0) :
    MtotalInBodyCS p t ![0, 0, 0] act s = 0 := by
  unfold MtotalInBodyCS
  rw [vec3_zero, zero_add]
  apply Finset.sum_eq_zero
  intro i _
  exact Mmotor_zero p t act s i hthr hact

theorem sumFmotors_zero (t : AeroTables) (act : ℕ → ℝ) (s : VtolState)
    (hthr : thruster t 0 = some (0, 0, 0)) (hact : ∀ k, act k = 0) :
    sumFmotors t act s = 0 := by
  unfold sumFmotors
  apply Finset.sum_eq_zero
  intro i _
  exact Fmotor_zero t act s i hthr hact

theorem angularAccel_zero (inertia : Matrix (Fin 3) (Fin 3) ℝ) :
    calculateAngularAccel inertia 0 0 = 0 := by
  unfold calculateAngularAccel
  rw [Matrix.mulVec_zero, cross3_zero_left, sub_zero, Matrix.mulVec_zero]

theorem calculateNewState_initialAttitude (p : VtolParams) (t : AeroTables)
    (Ma Fa : Vec3) (act : ℕ → ℝ) (dt : ℝ) (s : VtolState) :
    (calculateNewState p t Ma Fa act dt s).initialAttitude = s.initialAttitude := by
  simp only [calculateNewState]
  split <;> rfl

theorem landed_step (p : VtolParams) (t : AeroTables) (act : ℕ → ℝ) (dt : ℝ)
    (s : VtolState) (hthr : thruster t 0 = some (0, 0, 0)) (hact : ∀ k, act k = 0)
    (hm : p.mass ≠ 0) (hg : 0 ≤ p.gravity) (hinit : normSq s.initialAttitude ≠ 0)
    (hs : landedInvariant s) :
    landedInvariant (calculateNewState p t ![0, 0, 0] ![0, 0, 0] act dt s) := by
  obtain ⟨hv, hw, ha, hz⟩ := hs
  have hw0 : s.angularVel = 0 := by rw [hw, vec3_zero]
  have hv0 : s.linearVel = 0 := by rw [hv, vec3_zero]
  have homega : (calculateNewStatePre p t ![0, 0, 0] ![0, 0, 0] act dt s).1.angularVel = 0 := by
    rw [pre_angularVel, hw0, MtotalInBodyCS_zero p t act s hthr hact, angularAccel_zero,
      smul_zero, add_zero]
  have hatt : (calculateNewStatePre p t ![0, 0, 0] ![0, 0, 0] act dt s).1.attitude =
      normalize s.initialAttitude := by
    rw [pre_attitude, homega, attitudeStep_zero_vec', ha]
  have hattN : normSq ((calculateNewStatePre p t ![0, 0, 0] ![0, 0, 0] act dt s).1.attitude) = 1 := by
    rw [hatt]
    exact normSq_normalize _ hinit
  have hlv : (calculateNewStatePre p t ![0, 0, 0] ![0, 0, 0] act dt s).1.linearVel =
      dt • ![0, 0, p.gravity] := by
    rw [pre_linearVel, hv0]
    have hFa : (![0, 0, 0] : Vec3) + sumFmotors t act s = 0 := by
      rw [vec3_zero, sumFmotors_zero t act s hthr hact, add_zero]
    rw [hFa, smul_zero, zero_add, zero_add, Matrix.mulVec_smul,
      calcRot_inv_mulVec _ hattN, smul_smul, smul_smul]
    congr 1
    field_simp
  have hgvec : (![0, 0, p.gravity] : Vec3) 2 = p.gravity := rfl
  have hpos : (calculateNewStatePre p t ![0, 0, 0] ![0, 0, 0] act dt s).1.position 2 =
      dt * (dt * p.gravity) := by
    rw [pre_position, hlv]
    simp [hz, hgvec]
  have hge : (calculateNewStatePre p t ![0, 0, 0] ![0, 0, 0] act dt s).1.position 2 ≥ 0 := by
    rw [hpos]
    have h1 : 0 ≤ p.gravity * dt ^ 2 := mul_nonneg hg (sq_nonneg dt)
    nlinarith
  have hland : calculateNewState p t ![0, 0, 0] ![0, 0, 0] act dt s =
      land p (calculateNewStatePre p t ![0, 0, 0] ![0, 0, 0] act dt s).1 := by
    simp only [calculateNewState]
    rw [if_pos hge]
  rw [hland]
  refine ⟨rfl, rfl, rfl, ?_⟩
  show (if (2 : Fin 3) = 2 then (0 : ℝ)
    else (calculateNewStatePre p t ![0, 0, 0] ![0, 0, 0] act dt s).1.position 2) = 0
  simp

theorem landed_iterate (p : VtolParams) (t : AeroTables) (act : ℕ → ℝ) (dt : ℝ)
    (s : VtolState) (hthr : thruster t 0 = some (0, 0, 0)) (hact : ∀ k, act k = 0)
    (hm : p.mass ≠ 0) (hg : 0 ≤ p.gravity) (hinit : normSq s.initialAttitude ≠ 0)
    (hs : landedInvariant s) (n : ℕ) :
    landedInvariant ((fun st => calculateNewState p t ![0, 0, 0] ![0, 0, 0] act dt st)^[n] s) ∧
    ((fun st => calculateNewState p t ![0, 0, 0] ![0, 0, 0] act dt st)^[n] s).initialAttitude =
      s.initialAttitude := by
  induction n with
  | zero => exact ⟨hs, rfl⟩
  | succ k ih =>
    rw [Function.iterate_succ_apply']
    obtain ⟨ih1, ih2⟩ := ih
    have hinit' : normSq (((fun st => calculateNewState p t ![0, 0, 0] ![0, 0, 0] act dt st)^[k] s).initialAttitude) ≠ 0 := by
      rw [ih2]
      exact hinit
    refine ⟨landed_step p t act dt _ hthr hact hm hg hinit' ih1, ?_⟩
    rw [calculateNewState_initialAttitude, ih2]

theorem thruster_tables0 : thruster tables0 0 = some (0, 0, 0) := by
  have hidx : tablePrevIdx tables0.prop 0 = 0 := by
    norm_num [tablePrevIdx, findPrevRowIdxInMonotonicSequence,
      findPrevRowIdxInIncreasingSequence, findPrevRowIdxInDecreasingSequence,
      countBelow, countAbove, tableBreakpoint, tables0, propTable0]
  simp only [thruster]
  rw [hidx]
  norm_num [tables0, propTable0, lerp]

theorem pre_state0_position :
    (calculateNewStatePre params0 tables0 ![0, 0, 0] ![0, 0, 0] (fun _ => 0) 0 state0).1.position 2 = 1 := by
  rw [pre_position, zero_smul, add_zero]
  rfl

theorem state0_attitude_after :
    (calculateNewState params0 tables0 ![0, 0, 0] ![0, 0, 0] (fun _ => 0) 0 state0).attitude =
      quatMk 1 0.2 0.1 0.05 := by
  simp only [calculateNewState]
  rw [if_pos (by rw [pre_state0_position]; norm_num)]
  rfl

/-!
Claim theorems.
-/

/-- Claim C5, counterexample: at air density 1, wing area 1 and airspeed 1
the source's dynamic-pressure function returns `ρ·V²·A = 1`, not the claimed
`0.5·ρ·V²·A = 0.5`. -/
theorem dynamicPressure_claim_counterexample :
    calculateDynamicPressure params0 1 ≠ 0.5 * params0.atmoRho * 1 ^ 2 * params0.wingArea := by
  norm_num [calculateDynamicPressure, params0]

/-- Claim C5 (amended): the dynamic-pressure computation returns
`ρ·V²·wingArea`, exactly twice the spec's `0.5·ρ·V²·wingArea`; the factor
one half is applied later, when `calculateAerodynamics` assembles the forces
and moments. -/
theorem dynamicPressure_no_half (p : VtolParams) (V : ℝ) :
    calculateDynamicPressure p V = 2 * (0.5 * p.atmoRho * V ^ 2 * p.wingArea) := by
  unfold calculateDynamicPressure; ring

/-- Claim C9: the motors-rpm accessor returns `true` and appends exactly the
five stored rpm values (lift rotors 0–3 followed by the forward engine 4) to
the caller's vector, so the length grows by five and the original elements
are unchanged. -/
theorem getMotorsRpm_appends (s : VtolState) (v : List ℝ) :
    (getMotorsRpm s v).1 = true ∧
    (getMotorsRpm s v).2 =
      v ++ [s.motorsRpm 0, s.motorsRpm 1, s.motorsRpm 2, s.motorsRpm 3, s.motorsRpm 4] ∧
    (getMotorsRpm s v).2.length = v.length + 5 ∧
    (getMotorsRpm s v).2.take v.length = v := by
  refine ⟨rfl, rfl, ?_, ?_⟩
  · simp [getMotorsRpm]
  · simp [getMotorsRpm]

/-- Claim C7: both mixer variants return any command vector whose length is
not 8 unchanged. -/
theorem mapper_wrong_size_passthrough (p : VtolParams) (cmd : List ℝ)
    (h : cmd.length ≠ 8) :
    mapCmdToActuatorStandardVTOL p cmd = cmd ∧ mapCmdToActuatorInnoVTOL p cmd = cmd := by
  constructor
  · unfold mapCmdToActuatorStandardVTOL
    rw [if_pos h]
  · unfold mapCmdToActuatorInnoVTOL
    rw [if_pos h]

/-- Claim C7, witness at the length-3 vector `[1, 2, 3]`. -/
theorem mapper_wrong_size_passthrough_witness :
    ([1, 2, 3] : List ℝ).length ≠ 8 ∧
    mapCmdToActuatorStandardVTOL params0 [1, 2, 3] = [1, 2, 3] ∧
    mapCmdToActuatorInnoVTOL params0 [1, 2, 3] = [1, 2, 3] := by
  have h : ([1, 2, 3] : List ℝ).length ≠ 8 := by simp
  exact ⟨h, (mapper_wrong_size_passthrough params0 [1, 2, 3] h).1,
    (mapper_wrong_size_passthrough params0 [1, 2, 3] h).2⟩

/-- Claim C10: for every 8-element command vector the StandardVTOL mixer
produces an 8-element output whose rudder channel (index 7) is exactly 0. -/
theorem standard_mixer_rudder_zero (p : VtolParams) (cmd : List ℝ)
    (h : cmd.length = 8) :
    (mapCmdToActuatorStandardVTOL p cmd).getD 7 0 = 0 ∧
    (mapCmdToActuatorStandardVTOL p cmd).length = 8 := by
  unfold mapCmdToActuatorStandardVTOL
  rw [if_neg (by simp [h])]
  constructor
  · norm_num [List.getD, clamp]
  · simp

/-- Claim C10, witness at the all-zero 8-element command vector. -/
theorem standard_mixer_rudder_zero_witness :
    ([0, 0, 0, 0, 0, 0, 0, 0] : List ℝ).length = 8 ∧
    (mapCmdToActuatorStandardVTOL params0 [0, 0, 0, 0, 0, 0, 0, 0]).getD 7 0 = 0 := by
  have h : ([0, 0, 0, 0, 0, 0, 0, 0] : List ℝ).length = 8 := by simp
  exact ⟨h, (standard_mixer_rudder_zero params0 [0, 0, 0, 0, 0, 0, 0, 0] h).1⟩

/-- Claim C1 (amended): one actuator-lag update produces, per channel,
`t + (p − t)·(1 − 2.71^(−dt/τᵢ))` where `p` is the previous filtered value
(the incoming current-filtered entry) and `2.71` is the source's literal
base standing in for Euler's number; afterwards the stored previous-filtered
vector equals the current-filtered vector from before the call. -/
theorem updateActuators_lag (t : AeroTables) (cmd : Fin 8 → ℝ) (dt : ℝ)
    (s : VtolState) (i : Fin 8) (hdt : 0 < dt)
    (htau : 0 < t.actuatorTimeConstants i) :
    (updateActuators t cmd dt s).1 i =
      cmd i + (s.crntActuators i - cmd i) *
        (1 - (2.71 : ℝ) ^ (-dt / t.actuatorTimeConstants i)) ∧
    (updateActuators t cmd dt s).2.prevActuators = s.crntActuators :=
  ⟨rfl, rfl⟩

/-- Claim C1, witness at channel 0, dt = 1, unit time constant, target 0 and
previous filtered value 1. -/
theorem updateActuators_lag_witness :
    (0 : ℝ) < 1 ∧ (0 : ℝ) < tables0.actuatorTimeConstants 0 ∧
    ((updateActuators tables0 zeroCmd 1 stateC1).1 0 =
      zeroCmd 0 + (stateC1.crntActuators 0 - zeroCmd 0) *
        (1 - (2.71 : ℝ) ^ (-1 / tables0.actuatorTimeConstants 0)) ∧
     (updateActuators tables0 zeroCmd 1 stateC1).2.prevActuators =
       stateC1.crntActuators) := by
  refine ⟨one_pos, by norm_num [tables0], ?_⟩
  exact updateActuators_lag tables0 zeroCmd 1 stateC1 0 one_pos (by norm_num [tables0])

/-- Claim C1, counterexample: with τ₀ = 1, dt = 1, previous filtered value 1
and target 0 the code produces `1 − 2.71⁻¹`, while the claim's formula with
Euler's number demands `1 − e⁻¹`; the two differ because `e ≠ 2.71`. -/
theorem updateActuators_euler_counterexample :
    (updateActuators tables0 zeroCmd 1 stateC1).1 0 ≠
      zeroCmd 0 + (stateC1.crntActuators 0 - zeroCmd 0) *
        (1 - Real.exp (-1 / tables0.actuatorTimeConstants 0)) := by
  have hrw : (updateActuators tables0 zeroCmd 1 stateC1).1 0 =
      0 + (1 - 0) * (1 - (2.71 : ℝ) ^ (-(1 : ℝ) / 1)) := rfl
  have htau : tables0.actuatorTimeConstants 0 = 1 := rfl
  have hc : stateC1.crntActuators 0 = 1 := rfl
  have hz : zeroCmd 0 = 0 := rfl
  rw [hrw, htau, hc, hz]
  have hL : (2.71 : ℝ) ^ ((-1 : ℝ) / 1) = (2.71 : ℝ)⁻¹ := by
    rw [show ((-1 : ℝ) / 1) = ((-1 : ℤ) : ℝ) by norm_num, Real.rpow_intCast]
    norm_num
  have hR : Real.exp ((-1 : ℝ) / 1) = (Real.exp 1)⁻¹ := by
    rw [show ((-1 : ℝ) / 1) = -(1 : ℝ) by norm_num, Real.exp_neg]
  rw [hL, hR]
  have hexp : (2.71 : ℝ) < Real.exp 1 := by
    have := Real.exp_one_gt_d9
    linarith
  have hinv : (Real.exp 1)⁻¹ < (2.71 : ℝ)⁻¹ := by
    apply inv_lt_inv_of_lt (by norm_num) hexp
  intro habs
  nlinarith

/-- Claim C4, counterexample: a 2×2 table with bracketing breakpoints 0 and
1 (spacing 1 ≥ 1e-3) together with an output vector declared with zero rows
is rejected by the code, although the claim's failure conditions all fail to
hold, so the claim's "otherwise it returns success" is false. -/
theorem polynomialTable_claim_counterexample :
    2 ≤ tableT2.rows ∧ 2 ≤ tableT2.cols ∧ (0.001 : ℝ) ≤ |tableStep tableT2 0.5| ∧
    (calculatePolynomialUsingTable tableT2 0.5 0 (fun _ => 0)).1 = false := by
  refine ⟨by norm_num [tableT2], by norm_num [tableT2], ?_, ?_⟩
  · rw [tableT2_step]; norm_num
  · norm_num [calculatePolynomialUsingTable, tableT2]

/-- Claim C4 (amended): the interpolation fails, leaving the coefficient
vector unmodified, when the table has fewer than 2 rows or columns, when the
output vector has fewer than `cols − 1` entries, or when the bracketing
breakpoints differ by less than 1e-3; otherwise it succeeds and writes the
linear interpolation of the bracketing rows into the first `cols − 1`
entries, leaving the rest unmodified. -/
theorem polynomialTable_spec (table : MatrixD) (V : ℝ) (cr : ℕ) (c : ℕ → ℝ) :
    (table.rows < 2 ∨ table.cols < 2 ∨ cr < table.cols - 1 ∨
        |tableStep table V| < 0.001 →
      calculatePolynomialUsingTable table V cr c = (false, c)) ∧
    (2 ≤ table.rows → 2 ≤ table.cols → table.cols - 1 ≤ cr →
        0.001 ≤ |tableStep table V| →
      (calculatePolynomialUsingTable table V cr c).1 = true ∧
      (∀ k, k < table.cols - 1 →
        (calculatePolynomialUsingTable table V cr c).2 k =
          lerp (table.entry (tablePrevIdx table V) (k + 1))
               (table.entry (tablePrevIdx table V + 1) (k + 1))
               ((V - table.entry (tablePrevIdx table V) 0) / tableStep table V)) ∧
      (∀ k, table.cols - 1 ≤ k →
        (calculatePolynomialUsingTable table V cr c).2 k = c k)) := by
  constructor
  · intro h
    simp only [calculatePolynomialUsingTable]
    split_ifs with h1 h2 h3
    · rfl
    · rfl
    · rfl
    · exfalso
      push_neg at h1
      obtain ⟨hc2, hr2, hcr⟩ := h1
      rcases h with h | h | h | h
      · omega
      · omega
      · omega
      · exact h3 h
  · intro hr hc hcr hstep
    simp only [calculatePolynomialUsingTable]
    split_ifs with h1 h2 h3
    · exfalso; rcases h1 with h1 | h1 | h1 <;> omega
    · exfalso
      have := tablePrevIdx_add_two_le table V hr
      omega
    · exfalso
      simp only [tableStep] at hstep
      linarith
    · refine ⟨rfl, ?_, ?_⟩
      · intro k hk
        simp only [tableStep]
        rw [if_pos hk]
      · intro k hk
        simp only []
        rw [if_neg (by omega)]

/-- Claim C6: the aerodynamic moment decomposes into its zero-deflection
base plus the control-surface contributions, in which the elevator
control-derivative is looked up at `|e|` and then multiplied by the signed
deflection `e`, while the aileron and rudder derivatives are looked up at
the raw signed deflections. -/
theorem aero_control_surface_moments (t : AeroTables) (p : VtolParams)
    (airspeed : Vec3) (AoA AoS a e r : ℝ) (c0 : ℕ → ℝ) :
    (calculateAerodynamics t p airspeed AoA AoS a e r c0).2 =
      (calculateAerodynamics t p airspeed AoA AoS 0 0 0 c0).2 +
      (0.5 * calculateDynamicPressure p (norm3 airspeed) * p.characteristicLength) •
        ![calculateCmxAileron t a (clamp (norm3 airspeed) 5 40) * a,
          calculateCmyElevator t |e| (clamp (norm3 airspeed) 5 40) * e,
          calculateCmzRudder t r (clamp (norm3 airspeed) 5 40) * r] := by
  simp only [calculateAerodynamics]
  funext i
  fin_cases i <;>
    simp [Pi.add_apply, Pi.smul_apply, smul_eq_mul] <;>
    ring

/-- Claim C8, counterexample: a repeated call in the `AIRSPEED` mode (the
previous recorded mode already equals `AIRSPEED`) still re-assigns the
mode's fixed quaternion: starting from the pure-i attitude the call returns
the fixed identity attitude instead of the integration-only result. -/
theorem calibrate_airspeed_reset_counterexample :
    (calibrate params0 .AIRSPEED .AIRSPEED stateA).1.attitude ≠
      attitudeStep stateA.attitude
        ((calibrate params0 .AIRSPEED .AIRSPEED stateA).1.angularVel) 0.001 := by
  have hvel : (calibrate params0 .AIRSPEED .AIRSPEED stateA).1.angularVel = ![0, 0, 0] := rfl
  have hres : (calibrate params0 .AIRSPEED .AIRSPEED stateA).1.attitude =
      attitudeStep (quatMk 1 0 0 0) ![0, 0, 0] 0.001 := rfl
  have hA : stateA.attitude = quatMk 0 1 0 0 := rfl
  rw [hres, hvel, hA, attitudeStep_zero_vec, attitudeStep_zero_vec,
    normalize_of_normSq_one _ (by rw [normSq_quatMk]; norm_num),
    normalize_of_normSq_one _ (by rw [normSq_quatMk]; norm_num)]
  intro h
  have h1 : (quatMk 1 0 0 0).re = (quatMk 0 1 0 0).re := by rw [h]
  norm_num [quatMk] at h1

/-- Claim C8 (amended): for the twelve prev-mode-guarded calibration modes
(magnetometer positions 1–6, accelerometer positions 1–6) the fixed attitude
quaternion is assigned exactly on the transitioning call (the tick's
integration then starts from the fixed quaternion), while a repeated call in
the same mode does not re-assign it: the resulting attitude is the
fixed-small-step integration of the incoming attitude.  The ardupilot
magnetometer modes 7–9 never assign an attitude — on every call, whatever
the previous mode, their attitude advances only through the integration
step, so in particular repeated calls keep the subsequent-call guarantee.
The `AIRSPEED` mode instead re-assigns its fixed identity quaternion on
every call. -/
theorem calibrate_attitude_entry_only :
    (∀ (p : VtolParams) (s : VtolState) (calType : CalibrationType),
      calType ∈ guardedModes →
      (calibrate p calType calType s).1.attitude =
        attitudeStep s.attitude ((calibrate p calType calType s).1.angularVel) 0.001) ∧
    (∀ (p : VtolParams) (s : VtolState) (calType prev : CalibrationType),
      calType ∈ guardedModes → prev ≠ calType →
      (calibrate p calType prev s).1.attitude =
        attitudeStep (guardedFixedAttitude calType)
          ((calibrate p calType prev s).1.angularVel) 0.001) ∧
    (∀ (p : VtolParams) (s : VtolState) (calType prev : CalibrationType),
      calType ∈ ardupilotModes →
      (calibrate p calType prev s).1.attitude =
        attitudeStep s.attitude ((calibrate p calType prev s).1.angularVel) 0.001) ∧
    (∀ (p : VtolParams) (s : VtolState) (prev : CalibrationType),
      (calibrate p .AIRSPEED prev s).1.attitude =
        attitudeStep (quatMk 1 0 0 0)
          ((calibrate p .AIRSPEED prev s).1.angularVel) 0.001) := by
  refine ⟨?_, ?_, ?_, ?_⟩
  · intro p s calType hmem
    fin_cases hmem <;> rfl
  · intro p s calType prev hmem hne
    fin_cases hmem <;>
      simp [calibrate, calibrateSwitch, guardedFixedAttitude, hne]
  · intro p s calType prev hmem
    fin_cases hmem <;> rfl
  · intro p s prev
    rfl

/-- Claim C8, witness: a repeated `MAG_1_NORMAL` call integrates the
incoming pure-i attitude instead of re-assigning the fixed one; entering
`MAG_1_NORMAL` from `WORK_MODE` integrates the fixed identity quaternion;
and a repeated `MAG_8_ARDUPILOT` call integrates the incoming attitude. -/
theorem calibrate_attitude_entry_only_witness :
    CalibrationType.MAG_1_NORMAL ∈ guardedModes ∧
    CalibrationType.WORK_MODE ≠ CalibrationType.MAG_1_NORMAL ∧
    CalibrationType.MAG_8_ARDUPILOT ∈ ardupilotModes ∧
    (calibrate params0 .MAG_1_NORMAL .MAG_1_NORMAL stateA).1.attitude =
      attitudeStep stateA.attitude
        ((calibrate params0 .MAG_1_NORMAL .MAG_1_NORMAL stateA).1.angularVel) 0.001 ∧
    (calibrate params0 .MAG_1_NORMAL .WORK_MODE stateA).1.attitude =
      attitudeStep (guardedFixedAttitude .MAG_1_NORMAL)
        ((calibrate params0 .MAG_1_NORMAL .WORK_MODE stateA).1.angularVel) 0.001 ∧
    (calibrate params0 .MAG_8_ARDUPILOT .MAG_8_ARDUPILOT stateA).1.attitude =
      attitudeStep stateA.attitude
        ((calibrate params0 .MAG_8_ARDUPILOT .MAG_8_ARDUPILOT stateA).1.angularVel) 0.001 := by
  have hmem : CalibrationType.MAG_1_NORMAL ∈ guardedModes := by
    simp [guardedModes]
  have hne : CalibrationType.WORK_MODE ≠ CalibrationType.MAG_1_NORMAL := by
    decide
  have hmem8 : CalibrationType.MAG_8_ARDUPILOT ∈ ardupilotModes := by
    simp [ardupilotModes]
  exact ⟨hmem, hne, hmem8,
    calibrate_attitude_entry_only.1 params0 stateA _ hmem,
    calibrate_attitude_entry_only.2.1 params0 stateA _ _ hmem hne,
    calibrate_attitude_entry_only.2.2.1 params0 stateA _ _ hmem8⟩

/-- Claim C2, counterexample: one integration step that triggers the ground
reset sets the attitude to the stored initial reference attitude verbatim;
with the repository's own non-unit test attitude `(1, 0.2, 0.1, 0.05)` as
the initial reference, the resulting norm `√1.0525 ≈ 1.0259` misses 1 by far
more than 1e-9. -/
theorem attitude_unit_norm_counterexample :
    |quatNorm (calculateNewState params0 tables0 ![0, 0, 0] ![0, 0, 0]
        (fun _ => 0) 0 state0).attitude - 1| > 1e-9 := by
  rw [state0_attitude_after]
  unfold quatNorm
  rw [normSq_quatMk]
  rw [show (1 : ℝ) ^ 2 + 0.2 ^ 2 + 0.1 ^ 2 + 0.05 ^ 2 = 1.0525 by norm_num]
  have h2 : (1.02 : ℝ) < Real.sqrt 1.0525 := by
    rw [show (1.02 : ℝ) = Real.sqrt (1.02 ^ 2) by
      rw [Real.sqrt_sq (by norm_num)]]
    exact Real.sqrt_lt_sqrt (by norm_num) (by norm_num)
  rw [abs_of_pos (by linarith)]
  linarith

/-- Claim C2 (amended): provided the current attitude quaternion is nonzero
and the stored initial reference attitude is unit-norm, the attitude has
norm exactly 1 after one rigid-body integration step and after every
calibration-mode tick. -/
theorem attitude_unit_norm (p : VtolParams) (t : AeroTables) (Maero Faero : Vec3)
    (act : ℕ → ℝ) (dt : ℝ) (s : VtolState) (hq : normSq s.attitude ≠ 0)
    (hinit : normSq s.initialAttitude = 1) :
    quatNorm (calculateNewState p t Maero Faero act dt s).attitude = 1 ∧
    (∀ (calType prev : CalibrationType),
      quatNorm (calibrate p calType prev s).1.attitude = 1) := by
  constructor
  · simp only [calculateNewState]
    split
    · have h1 : (land p (calculateNewStatePre p t Maero Faero act dt s).1).attitude =
          s.initialAttitude := rfl
      rw [h1]
      unfold quatNorm
      rw [hinit, Real.sqrt_one]
    · have h1 : ({ (calculateNewStatePre p t Maero Faero act dt s).1 with
          Fspecific := (calculateNewStatePre p t Maero Faero act dt s).2 }).attitude =
            attitudeStep s.attitude
              ((calculateNewStatePre p t Maero Faero act dt s).1.angularVel) dt := rfl
      rw [h1]
      exact quatNorm_attitudeStep _ _ _ hq
  · intro calType prev
    have h1 : (calibrate p calType prev s).1.attitude =
        attitudeStep (calibrateSwitch calType prev { s with
            linearVel := ![0, 0, 0]
            position := fun i => if i = 2 then 0 else s.position i }).attitude
          ((calibrateSwitch calType prev { s with
            linearVel := ![0, 0, 0]
            position := fun i => if i = 2 then 0 else s.position i }).angularVel)
          0.001 := rfl
    rw [h1]
    exact quatNorm_attitudeStep _ _ _
      (calibrateSwitch_attitude_normSq calType prev _ hq)

/-- Claim C2, witness: a unit-attitude resting state keeps norm 1 through an
integration step. -/
theorem attitude_unit_norm_witness :
    normSq stateL.attitude ≠ 0 ∧ normSq stateL.initialAttitude = 1 ∧
    quatNorm (calculateNewState params0 tables0 ![0, 0, 0] ![0, 0, 0]
      (fun _ => 0) 0 stateL).attitude = 1 := by
  have h1 : normSq stateL.attitude ≠ 0 := by
    rw [show stateL.attitude = quatMk 1 0 0 0 from rfl, normSq_quatMk]
    norm_num
  have h2 : normSq stateL.initialAttitude = 1 := by
    rw [show stateL.initialAttitude = quatMk 1 0 0 0 from rfl, normSq_quatMk]
    norm_num
  exact ⟨h1, h2, (attitude_unit_norm params0 tables0 ![0, 0, 0] ![0, 0, 0]
    (fun _ => 0) 0 stateL h1 h2).1⟩

/-- Claim C3: if the integrated position reaches the ground threshold
(`position[2] ≥ 0`, down-positive), the tick ends in the reset state: zero
linear and angular velocity, attitude equal to the stored initial reference,
and all five motor rpm values zero.  Moreover the reset is idempotent: from
a landed state, under zero-thrust input (a propeller table mapping command 0
to zero thrust/torque/rpm and all-zero actuator commands, hence no
aerodynamic force or moment), every iterate of the tick keeps zero
velocities, the initial reference attitude, and ground altitude. -/
theorem ground_contact_reset :
    (∀ (p : VtolParams) (t : AeroTables) (Maero Faero : Vec3) (act : ℕ → ℝ)
      (dt : ℝ) (s : VtolState),
      (calculateNewStatePre p t Maero Faero act dt s).1.position 2 ≥ 0 →
      (calculateNewState p t Maero Faero act dt s).linearVel = ![0, 0, 0] ∧
      (calculateNewState p t Maero Faero act dt s).angularVel = ![0, 0, 0] ∧
      (calculateNewState p t Maero Faero act dt s).attitude = s.initialAttitude ∧
      (∀ i : Fin 5, (calculateNewState p t Maero Faero act dt s).motorsRpm i = 0)) ∧
    (∀ (p : VtolParams) (t : AeroTables) (act : ℕ → ℝ) (dt : ℝ) (s : VtolState),
      thruster t 0 = some (0, 0, 0) → (∀ k, act k = 0) → p.mass ≠ 0 →
      0 ≤ p.gravity → normSq s.initialAttitude ≠ 0 → landedInvariant s →
      ∀ n : ℕ, landedInvariant
        ((fun st => calculateNewState p t ![0, 0, 0] ![0, 0, 0] act dt st)^[n] s)) := by
  constructor
  · intro p t Maero Faero act dt s hge
    have hland : calculateNewState p t Maero Faero act dt s =
        land p (calculateNewStatePre p t Maero Faero act dt s).1 := by
      simp only [calculateNewState]
      rw [if_pos hge]
    rw [hland]
    exact ⟨rfl, rfl, rfl, fun i => rfl⟩
  · intro p t act dt s hthr hact hm hg hinit hs n
    exact (landed_iterate p t act dt s hthr hact hm hg hinit hs n).1

/-- Claim C3, witness: a below-threshold state resets to its initial
reference attitude, and a resting landed state stays landed for one more
zero-thrust tick. -/
theorem ground_contact_reset_witness :
    (calculateNewStatePre params0 tables0 ![0, 0, 0] ![0, 0, 0]
        (fun _ => 0) 0 state0).1.position 2 ≥ 0 ∧
    (calculateNewState params0 tables0 ![0, 0, 0] ![0, 0, 0]
        (fun _ => 0) 0 state0).attitude = state0.initialAttitude ∧
    thruster tables0 0 = some (0, 0, 0) ∧ landedInvariant stateL ∧
    landedInvariant ((fun st => calculateNewState params0 tables0 ![0, 0, 0] ![0, 0, 0]
      (fun _ => 0) 1 st)^[1] stateL) := by
  have hpos : (calculateNewStatePre params0 tables0 ![0, 0, 0] ![0, 0, 0]
      (fun _ => 0) 0 state0).1.position 2 ≥ 0 := by
    rw [pre_state0_position]
    norm_num
  have hA := (ground_contact_reset.1 params0 tables0 ![0, 0, 0] ![0, 0, 0]
    (fun _ => 0) 0 state0 hpos).2.2.1
  have hL : landedInvariant stateL := ⟨rfl, rfl, rfl, rfl⟩
  have hB := ground_contact_reset.2 params0 tables0 (fun _ => 0) 1 stateL
    thruster_tables0 (fun _ => rfl) (by norm_num [params0]) (by norm_num [params0])
    (by rw [show stateL.initialAttitude = quatMk 1 0 0 0 from rfl, normSq_quatMk]; norm_num)
    hL 1
  exact ⟨hpos, hA, thruster_tables0, hL, hB⟩

/-- Claim C4, witness: the same 2×2 table succeeds once the output vector
has at least one entry, interpolating halfway between 5 and 7. -/
theorem polynomialTable_spec_witness :
    2 ≤ tableT2.rows ∧ 2 ≤ tableT2.cols ∧ tableT2.cols - 1 ≤ 1 ∧
    (0.001 : ℝ) ≤ |tableStep tableT2 0.5| ∧
    (calculatePolynomialUsingTable tableT2 0.5 1 (fun _ => 0)).1 = true := by
  have h := (polynomialTable_spec tableT2 0.5 1 (fun _ => 0)).2
    (by norm_num [tableT2]) (by norm_num [tableT2]) (by norm_num [tableT2])
    (by rw [tableT2_step]; norm_num)
  exact ⟨by norm_num [tableT2], by norm_num [tableT2], by norm_num [tableT2],
    by rw [tableT2_step]; norm_num, h.1⟩

end

end VtolDynamics
